import Mathlib

/-!
# TicketDrop core — a shallow embedding

This file embeds the core logic of the TicketDrop oilfield-hauling ticket
system (ticket creation, driver updates, completion, per-stage validation, and
the AXON billing export) and proves properties of it.

Modelling conventions:
* Spreadsheet rows are modelled as typed records (`TicketRec`); an empty cell
  is `none` (for numeric fields) or `""` (for text fields), matching Python
  falsiness of `''` / `0` / `None` / a missing key.
* A cell holding a timestamp string is modelled by `TimeStr`: `empty` for the
  empty cell, `bad raw` for a non-empty string that `datetime.fromisoformat`
  rejects, and `iso t` for a string parsing to the instant `t` (seconds since
  the epoch, as a rational).
* Machine floats are modelled as rationals.  Python `round(x, n)` and
  `f"{x:.2f}"` round half-to-even on binary floats; here rounding is
  half-up (`round` on rationals).  No property proved below depends on
  behaviour at exact ties.
* Python string operations are re-implemented over the character list of a
  `String` (`pyUpper`, `pyWords`, ...), with the same semantics on the ASCII
  data the system stores.
* The Google-Sheets store is modelled as in-memory lists of records
  (`Store`); a store scan that raises is modelled by an `Option` input.
-/

namespace TicketDrop

/-! ## Python string primitives over character lists -/

/-- Python `str.upper()`. -/
def pyUpper (s : String) : String := String.mk (s.data.map Char.toUpper)

/-- Python `str.lower()`. -/
def pyLower (s : String) : String := String.mk (s.data.map Char.toLower)

/-- Python `s.startswith(p)`. -/
def pyStartsWith (s p : String) : Bool := p.data.isPrefixOf s.data

/-- Python `len(s)`. -/
def sLen (s : String) : ℕ := s.data.length

/-- Python `s[-3:]` (for strings shorter than 3, the whole string, as in
Python). -/
def last3 (s : String) : String := String.mk (s.data.drop (s.data.length - 3))

/-- Python `int(s)` restricted to unsigned digit strings: `none` models the
`ValueError` raised on anything else. -/
def pyToNat? (s : String) : Option ℕ :=
  match s.data with
  | [] => none
  | _ :: _ =>
    if s.data.all Char.isDigit then
      some (s.data.foldl (fun acc c => 10 * acc + (c.toNat - 48)) 0)
    else none

/-- Helper for `pyWords`: splits a character list on whitespace runs,
accumulating the current word reversed. -/
def wordsAux : List Char → List Char → List (List Char)
  | [], cur => if cur.isEmpty then [] else [cur.reverse]
  | c :: rest, cur =>
    if c.isWhitespace then
      if cur.isEmpty then wordsAux rest [] else cur.reverse :: wordsAux rest []
    else wordsAux rest (c :: cur)

/-- Python `s.split()` with no separator: whitespace runs are separators and
empty tokens are dropped (so a preceding `.strip()` is absorbed). -/
def pyWords (s : String) : List String := (wordsAux s.data []).map String.mk

/-- Lexicographic code-point comparison of character lists, as Python `<` on
`str`. -/
def charListLt : List Char → List Char → Bool
  | [], [] => false
  | [], _ :: _ => true
  | _ :: _, [] => false
  | a :: as, b :: bs =>
    if a.toNat < b.toNat then true
    else if b.toNat < a.toNat then false
    else charListLt as bs

/-- Python `s < t` on strings. -/
def strLtb (s t : String) : Bool := charListLt s.data t.data

/-! ## Numeric formatting -/

/-- Two base-10 digits of `k % 100`, as `f"{k:02d}"` prints for `k < 100`
(every call site passes `k < 100`). -/
def pad2 (k : ℕ) : String :=
  String.mk [Nat.digitChar (k / 10 % 10), Nat.digitChar (k % 10)]

/-- Zero-padding to at least three digits, as `f"{n:03d}"`. -/
def pad3 (n : ℕ) : String :=
  if n < 10 then "00" ++ toString n
  else if n < 100 then "0" ++ toString n
  else toString n

/-- Unsigned fixed-point rendering, two decimals, of `m` hundredths. -/
def fmt2Nat (m : ℕ) : String :=
  toString (m / 100) ++ "." ++ pad2 (m % 100)

/-- Signed rendering of `n` hundredths. -/
def fmt2Int (n : ℤ) : String :=
  if n < 0 then "-" ++ fmt2Nat n.natAbs else fmt2Nat n.natAbs

/-- Rendering of `f"{x:.2f}"`: the value rounded to hundredths, printed with
exactly two digits after the decimal point. -/
def fmt2 (x : ℚ) : String := fmt2Int (round (100 * x))

/-- Rendering of `f"{x:.1f}"` (used only inside a validation message). -/
def fmt1 (x : ℚ) : String :=
  let n : ℤ := round (10 * x)
  (if n < 0 then "-" else "") ++ toString (n.natAbs / 10) ++ "." ++ toString (n.natAbs % 10)

/-- Python `round(x, 2)` on the rational model. -/
def round2 (x : ℚ) : ℚ :=
  ((round (100 * x) : ℤ) : ℚ) / 100

/-- The shape "some integer part, a point, then exactly two decimal digits". -/
def twoDecShape (s : String) : Prop :=
  ∃ ip k, k < 100 ∧ s = ip ++ "." ++ pad2 k

/-! ## Ticket number generation (`create_ticket.generate_ticket_number`) -/

/-- Ticket numbers found by the scan that start with today's prefix. -/
def existing_numbers (pfx : String) (used : List String) : List String :=
  used.filter (fun s => pyStartsWith s pfx)

/-- The prefix matches of the expected nine-character length. -/
def nine_digit (pfx : String) (used : List String) : List String :=
  (existing_numbers pfx used).filter (fun s => sLen s == 9)

/-- The parsed daily sequence numbers `int(num[-3:])`. -/
def sequences (pfx : String) (used : List String) : List ℕ :=
  (nine_digit pfx used).filterMap (fun s => pyToNat? (last3 s))

/-- `create_ticket.generate_ticket_number`, as a function of today's prefix
and the scan of ticket numbers across the three lifecycle sheets.
`scan = none` models the scan itself raising (store unavailable), which the
surrounding `try` catches by falling back to `pfx ++ "001"`.  A
nine-character match whose last three characters are not digits makes the
Python `int(num[-3:])` raise inside the same `try`, hence also falls back. -/
def generate_ticket_number (pfx : String) (scan : Option (List String)) : String :=
  match scan with
  | none => pfx ++ "001"
  | some used =>
    if (nine_digit pfx used).all (fun s => (pyToNat? (last3 s)).isSome) then
      let seq :=
        if (existing_numbers pfx used).isEmpty then 1
        else if (sequences pfx used).isEmpty then 1
        else (sequences pfx used).foldl max 0 + 1
      pfx ++ pad3 seq
    else
      pfx ++ "001"

/-! ## Data model -/

/-- The value of a cell that is read as a timestamp string: the empty cell, a
non-empty string rejected by `datetime.fromisoformat` (after the
`.replace('Z', '+00:00')` normalisation), or a string parsing to the instant
`t` in seconds. -/
inductive TimeStr where
  | empty : TimeStr
  | bad : String → TimeStr
  | iso : ℚ → TimeStr
deriving DecidableEq

/-- Python truthiness of a timestamp cell (`bool(data.get(field, ''))`). -/
def TimeStr.truthy : TimeStr → Bool
  | TimeStr.empty => false
  | _ => true

/-- The parsed instant, when the cell parses. -/
def TimeStr.val? : TimeStr → Option ℚ
  | TimeStr.iso t => some t
  | _ => none

/-- A ticket row, as the typed view of a spreadsheet row keyed by the
snake_case headers the scripts read and write. -/
structure TicketRec where
  ticket_number : String
  date : String
  customer : String
  from_lsd : String
  to_lsd : String
  product : String
  driver : String
  truck : String
  trailer : String
  est_volume : Option ℚ
  special_instructions : String
  priority : String
  status : String
  arrive_load : TimeStr
  depart_load : TimeStr
  arrive_offload : TimeStr
  depart_offload : TimeStr
  actual_volume : Option ℚ
  hours : Option ℚ
  wait_time : Option ℚ
  job_description : String
  consignor_load : String
  consignor_offload : String
  placards : String
  hazard_check : String
  signature : String
  notes : String
  completed_at : String
  updated_at : String
  exported : String
  exported_at : String
  export_file : String
deriving DecidableEq

/-- The two lifecycle collections the completion path touches. -/
structure Store where
  active : List TicketRec
  completed : List TicketRec
deriving DecidableEq

/-- The JSON completion payload handed to `complete_ticket` (`--data`): the
completion-stage fields, each `none` when the key is absent. -/
structure DriverData where
  arrive_load : Option TimeStr := none
  depart_load : Option TimeStr := none
  arrive_offload : Option TimeStr := none
  depart_offload : Option TimeStr := none
  actual_volume : Option ℚ := none
  hours : Option ℚ := none
  wait_time : Option ℚ := none
  job_description : Option String := none
  consignor_load : Option String := none
  consignor_offload : Option String := none
  placards : Option String := none
  hazard_check : Option String := none
  signature : Option String := none
  notes : Option String := none
deriving DecidableEq

/-! ## Derived metrics (`sync_driver_update.calculate_hours` / `calculate_wait_time`) -/

/-- `calculate_hours(data)`: hours between `arrive_load` and `depart_offload`
of the payload, rounded to 2 decimals; `0.0` when either key is missing, the
cell is empty, or parsing raises. -/
def calculate_hours (d : DriverData) : ℚ :=
  match (d.arrive_load.getD TimeStr.empty).val?, (d.depart_offload.getD TimeStr.empty).val? with
  | some a, some b => round2 ((b - a) / 3600)
  | _, _ => 0

/-- `calculate_wait_time(data)`: on-site wait at both ends, rounded to 2
decimals; `0.0` unless all four payload timestamps parse. -/
def calculate_wait_time (d : DriverData) : ℚ :=
  match (d.arrive_load.getD TimeStr.empty).val?, (d.depart_load.getD TimeStr.empty).val?,
        (d.arrive_offload.getD TimeStr.empty).val?, (d.depart_offload.getD TimeStr.empty).val? with
  | some a1, some d1, some a2, some d2 => round2 ((d1 - a1) / 3600 + (d2 - a2) / 3600)
  | _, _, _, _ => 0

/-- `data.get('hours') or calculate_hours(data)` — a present but falsy (zero)
value is recomputed, exactly as Python `or` does. -/
def effectiveHours (d : DriverData) : ℚ :=
  match d.hours with
  | some h => if h = 0 then calculate_hours d else h
  | none => calculate_hours d

/-- `data.get('wait_time') or calculate_wait_time(data)`. -/
def effectiveWait (d : DriverData) : ℚ :=
  match d.wait_time with
  | some w => if w = 0 then calculate_wait_time d else w
  | none => calculate_wait_time d

/-! ## Completion and single-field update (`sync_driver_update`) -/

/-- The dict merge inside `complete_ticket`: the payload keys (with
`hours` / `wait_time` / `status` / `completed_at` already filled in) overwrite
the row read from ACTIVE TICKETS. -/
def mergeData (t : TicketRec) (d : DriverData) (now : String) : TicketRec :=
  { t with
    arrive_load := d.arrive_load.getD t.arrive_load
    depart_load := d.depart_load.getD t.depart_load
    arrive_offload := d.arrive_offload.getD t.arrive_offload
    depart_offload := d.depart_offload.getD t.depart_offload
    actual_volume := match d.actual_volume with | some v => some v | none => t.actual_volume
    hours := some (effectiveHours d)
    wait_time := some (effectiveWait d)
    status := "COMPLETED"
    completed_at := now
    job_description := d.job_description.getD t.job_description
    consignor_load := d.consignor_load.getD t.consignor_load
    consignor_offload := d.consignor_offload.getD t.consignor_offload
    placards := d.placards.getD t.placards
    hazard_check := d.hazard_check.getD t.hazard_check
    signature := d.signature.getD t.signature
    notes := d.notes.getD t.notes }

/-- Result of `complete_ticket`: the success flag of the returned dict plus
the store as left by the call. -/
structure CompleteResult where
  success : Bool
  store : Store
deriving DecidableEq

/-- `sync_driver_update.complete_ticket`: find the first row of ACTIVE
TICKETS with the ticket number; if absent, fail with the store untouched;
otherwise merge the payload (derived fields filled in), append the merged row
to COMPLETED TICKETS and delete the row from ACTIVE TICKETS.  No validator is
invoked anywhere on this path. -/
def complete_ticket (st : Store) (n : String) (d : DriverData) (now : String) : CompleteResult :=
  match st.active.find? (fun r => r.ticket_number == n) with
  | none => ⟨false, st⟩
  | some t =>
    ⟨true,
     ⟨st.active.eraseP (fun r => r.ticket_number == n),
      st.completed ++ [mergeData t d now]⟩⟩

/-- The typed view of the string written into a cell by `update_field`. -/
inductive FieldVal where
  | str : String → FieldVal
  | ts : TimeStr → FieldVal
  | num : Option ℚ → FieldVal
deriving DecidableEq

/-- Writing one cell of a row, by header name.  `none` models
"Field not found in sheet" (and a value whose type does not fit the column,
which the typed view cannot represent). -/
def setTicketField (t : TicketRec) (field : String) (v : FieldVal) : Option TicketRec :=
  match field, v with
  | "ticket_number", FieldVal.str s => some { t with ticket_number := s }
  | "date", FieldVal.str s => some { t with date := s }
  | "customer", FieldVal.str s => some { t with customer := s }
  | "from_lsd", FieldVal.str s => some { t with from_lsd := s }
  | "to_lsd", FieldVal.str s => some { t with to_lsd := s }
  | "product", FieldVal.str s => some { t with product := s }
  | "driver", FieldVal.str s => some { t with driver := s }
  | "truck", FieldVal.str s => some { t with truck := s }
  | "trailer", FieldVal.str s => some { t with trailer := s }
  | "est_volume", FieldVal.num q => some { t with est_volume := q }
  | "special_instructions", FieldVal.str s => some { t with special_instructions := s }
  | "priority", FieldVal.str s => some { t with priority := s }
  | "arrive_load", FieldVal.ts w => some { t with arrive_load := w }
  | "depart_load", FieldVal.ts w => some { t with depart_load := w }
  | "arrive_offload", FieldVal.ts w => some { t with arrive_offload := w }
  | "depart_offload", FieldVal.ts w => some { t with depart_offload := w }
  | "actual_volume", FieldVal.num q => some { t with actual_volume := q }
  | "hours", FieldVal.num q => some { t with hours := q }
  | "notes", FieldVal.str s => some { t with notes := s }
  | _, _ => none

/-- The per-row effect of `update_field`: write the named cell, stamp
`updated_at`, and flip status to IN_PROGRESS when the first timestamp
(`arrive_load`) is recorded. -/
def applyUpdate (t : TicketRec) (field : String) (v : FieldVal) (now : String) :
    Option TicketRec :=
  (setTicketField t field v).map (fun t1 =>
    let t2 := { t1 with updated_at := now }
    if field == "arrive_load" then { t2 with status := "IN_PROGRESS" } else t2)

/-- Replace the first row carrying the ticket number. -/
def replaceFirst : List TicketRec → String → TicketRec → List TicketRec
  | [], _, _ => []
  | r :: rest, n, t1 =>
    if r.ticket_number == n then t1 :: rest else r :: replaceFirst rest n t1

/-- Result of `update_field`: success flag plus the store as left by the
call. -/
structure UpdateResult where
  success : Bool
  store : Store
deriving DecidableEq

/-- `sync_driver_update.update_field`: update one cell of the first ACTIVE
TICKETS row carrying the ticket number.  Unknown ticket or unknown field fail
with the store untouched; otherwise the write is applied unconditionally —
there is no immutability check on any field. -/
def update_field (st : Store) (n field : String) (v : FieldVal) (now : String) : UpdateResult :=
  match st.active.find? (fun r => r.ticket_number == n) with
  | none => ⟨false, st⟩
  | some t =>
    match applyUpdate t field v now with
    | none => ⟨false, st⟩
    | some t1 => ⟨true, ⟨replaceFirst st.active n t1, st.completed⟩⟩

/-! ## Stage validators (`validate_ticket`) -/

/-- One entry of the structured error / warning lists. -/
structure FieldMsg where
  field : String
  message : String
deriving DecidableEq

/-- The `{stage, valid, errors, warnings}` dict every stage validator
returns. -/
structure ValidationResult where
  stage : String
  valid : Bool
  errors : List FieldMsg
  warnings : List FieldMsg
deriving DecidableEq

/-- Python truthiness of an optional float (`bool(est_volume)`). -/
def optQTruthy : Option ℚ → Bool
  | none => false
  | some v => decide (v ≠ 0)

/-- `None`, the empty cell, or a non-positive parsed value — the failing
condition `not row.get(f) or float(row.get(f, 0)) <= 0`. -/
def numMissingOrNonpos : Option ℚ → Bool
  | none => true
  | some v => decide (v ≤ 0)

/-- The warning message carrying the variance percentage,
`f"Actual differs from estimated by {diff_pct*100:.0f}%"`. -/
def varianceMsg (a e : ℚ) : String :=
  "Actual differs from estimated by " ++ toString (round (|a - e| / e * 100)) ++ "%"

/-- The high-volume warning.  (Python interpolates `str(actual_volume)`;
the float repr is approximated by the one-decimal rendering.) -/
def volHighMsg (a : ℚ) : String :=
  "Volume " ++ fmt1 a ++ " m³ seems high - please verify"

/-- `validate_ticket.validate_volume`: error on non-positive volume, warning
above 500 m³, and a variance warning when an estimate was given (truthy and
positive) and actual differs from it by more than 20%. -/
def validate_volume (actual : ℚ) (est : Option ℚ) : List String × List String :=
  let errors := if actual ≤ 0 then ["Volume must be greater than 0"] else []
  let warnings :=
    (if 500 < actual then [volHighMsg actual] else []) ++
    (if optQTruthy est ∧ 0 < est.getD 0 then
      (if 1/5 < |actual - est.getD 0| / est.getD 0 then [varianceMsg actual (est.getD 0)] else [])
     else [])
  (errors, warnings)

/-- Format error for one timestamp cell: a non-empty unparseable string. -/
def tsFormatError (name : String) : TimeStr → List String
  | TimeStr.bad _ => ["Invalid timestamp format: " ++ name]
  | _ => []

/-- One pairwise ordering check: both cells parsed and the second not after
the first. -/
def seqCheck (a b : TimeStr) (msg : String) : List String :=
  match a.val?, b.val? with
  | some x, some y => if y ≤ x then [msg] else []
  | _, _ => []

/-- `validate_ticket.validate_timestamps`: format errors short-circuit;
otherwise pairwise ordering errors among the present timestamps plus the
24-hour span check. -/
def validate_timestamps (r : TicketRec) : List String :=
  let fmtErrs :=
    tsFormatError "arrive_load" r.arrive_load ++
    tsFormatError "depart_load" r.depart_load ++
    tsFormatError "arrive_offload" r.arrive_offload ++
    tsFormatError "depart_offload" r.depart_offload
  if fmtErrs.isEmpty then
    seqCheck r.arrive_load r.depart_load "Departed pickup before arriving" ++
    seqCheck r.depart_load r.arrive_offload "Arrived at delivery before leaving pickup" ++
    seqCheck r.arrive_offload r.depart_offload "Departed delivery before arriving" ++
    (match r.arrive_load.val?, r.depart_offload.val? with
     | some a, some e =>
       if 24 < (e - a) / 3600 then
         ["Total time exceeds 24 hours (" ++ fmt1 ((e - a) / 3600) ++ "h)"]
       else []
     | _, _ => [])
  else fmtErrs

/-- `validate_ticket.validate_completion` on a row: required timestamps,
timestamp logic, volume rules, and the hazard-check / signature flags
(both must read `Y` case-insensitively). -/
def validate_completion (r : TicketRec) : ValidationResult :=
  let reqErrs :=
    (if r.arrive_load.truthy then [] else [FieldMsg.mk "arrive_load" "Required timestamp: arrive_load"]) ++
    (if r.depart_load.truthy then [] else [FieldMsg.mk "depart_load" "Required timestamp: depart_load"]) ++
    (if r.arrive_offload.truthy then [] else [FieldMsg.mk "arrive_offload" "Required timestamp: arrive_offload"]) ++
    (if r.depart_offload.truthy then [] else [FieldMsg.mk "depart_offload" "Required timestamp: depart_offload"])
  let tsErrs := (validate_timestamps r).map (fun m => FieldMsg.mk "timestamps" m)
  let vol := validate_volume (r.actual_volume.getD 0) (some (r.est_volume.getD 0))
  let volErrs := vol.fst.map (fun m => FieldMsg.mk "actual_volume" m)
  let volWarns := vol.snd.map (fun m => FieldMsg.mk "actual_volume" m)
  let hazErrs :=
    if r.hazard_check = "" ∨ pyUpper r.hazard_check ≠ "Y" then
      [FieldMsg.mk "hazard_check" "Hazard assessment required"]
    else []
  let sigErrs :=
    if r.signature = "" ∨ pyUpper r.signature ≠ "Y" then
      [FieldMsg.mk "signature" "Driver signature required"]
    else []
  let errors := reqErrs ++ tsErrs ++ volErrs ++ hazErrs ++ sigErrs
  ⟨"completion", errors.isEmpty, errors, volWarns⟩

/-- `validate_ticket.validate_export`: only COMPLETED tickets with positive
volume and hours and a present arrival timestamp pass. -/
def validate_export (r : TicketRec) : ValidationResult :=
  let errors :=
    (if pyUpper r.status ≠ "COMPLETED" then
      [FieldMsg.mk "status" "Only completed tickets can be exported"]
     else []) ++
    (if numMissingOrNonpos r.actual_volume then
      [FieldMsg.mk "actual_volume" "Cannot export ticket with zero volume"]
     else []) ++
    (if numMissingOrNonpos r.hours then
      [FieldMsg.mk "hours" "Cannot export ticket with zero hours"]
     else []) ++
    (if r.arrive_load.truthy then [] else [FieldMsg.mk "arrive_load" "Invalid arrival timestamp"])
  ⟨"export", errors.isEmpty, errors, []⟩

/-! ## AXON billing export (`axon_export`) -/

/-- The AXON B622 column order — part of the external contract. -/
def AXON_COLUMNS : List String :=
  ["Attachment", "Customer", "Location", "Start Date", "Reference", "Ticket#",
   "Truck#", "Operator", "Trailer#", "Product", "Actual Vol", "Product2",
   "From LSD", "To LSD", "Hours", "Charge", "Job Desc", "Company", "Status"]

/-- `axon_export.format_operator_name`: `"First Last"` to `"Last, First"`;
fewer than two whitespace tokens pass the original string through. -/
def format_operator_name (driver_name : String) : String :=
  match pyWords driver_name with
  | f :: p :: ps => (p :: ps).getLast (List.cons_ne_nil p ps) ++ ", " ++ f
  | _ => driver_name

/-- Proleptic-Gregorian date of a day count relative to 1970-01-01
(`(year, month, day)`), on non-negative intermediate values. -/
def civilFromDays (z0 : ℤ) : ℤ × ℤ × ℤ :=
  let z := z0 + 719468
  let era := (if 0 ≤ z then z else z - 146096) / 146097
  let doe := z - era * 146097
  let yoe := (doe - doe / 1460 + doe / 36524 - doe / 146096) / 365
  let doy := doe - (365 * yoe + yoe / 4 - yoe / 100)
  let mp := (5 * doy + 2) / 153
  let d := doy - (153 * mp + 2) / 5 + 1
  let m := mp + (if mp < 10 then 3 else -9)
  (yoe + era * 400 + (if m ≤ 2 then 1 else 0), m, d)

/-- `dt.strftime("%d-%m-%Y %H:%M")` of the instant `t` (seconds since the
epoch). -/
def renderStartDate (t : ℚ) : String :=
  let n : ℤ := ⌊t⌋
  let days := n.ediv 86400
  let sod := (n.emod 86400).toNat
  let ymd := civilFromDays days
  pad2 ymd.2.2.toNat ++ "-" ++ pad2 ymd.2.1.toNat ++ "-" ++ toString ymd.1 ++ " " ++
    pad2 (sod / 3600) ++ ":" ++ pad2 (sod % 3600 / 60)

/-- `axon_export.format_start_date`: parse-and-reformat, passing the original
string through when parsing raises. -/
def format_start_date : TimeStr → String
  | TimeStr.empty => ""
  | TimeStr.bad raw => raw
  | TimeStr.iso t => renderStartDate t

/-- `axon_export.transform_to_axon`: the ordered association of AXON column
names to the rendered ticket values (the insertion order of the Python dict,
which `export_to_csv` then writes in `AXON_COLUMNS` order). -/
def transform_to_axon (t : TicketRec) : List (String × String) :=
  [("Attachment", "FALSE"),
   ("Customer", t.customer),
   ("Location", t.from_lsd ++ " to " ++ t.to_lsd),
   ("Start Date", format_start_date t.arrive_load),
   ("Reference", ""),
   ("Ticket#", t.ticket_number),
   ("Truck#", t.truck),
   ("Operator", format_operator_name t.driver),
   ("Trailer#", t.trailer),
   ("Product", t.product),
   ("Actual Vol", fmt2 (t.actual_volume.getD 0)),
   ("Product2", ""),
   ("From LSD", t.from_lsd),
   ("To LSD", t.to_lsd),
   ("Hours", fmt2 (t.hours.getD 0)),
   ("Charge", ""),
   ("Job Desc", t.product ++ " - " ++ t.customer),
   ("Company", "Rick's Oilfield Hauling"),
   ("Status", "Completed")]

/-- Reading one column of a transformed row. -/
def colValue (row : List (String × String)) (name : String) : Option String :=
  (row.find? (fun p => p.fst == name)).map Prod.snd

/-- The filter set of the export batch coordinator. -/
structure ExportFilters where
  date_from : Option String := none
  date_to : Option String := none
  customer : Option String := none
  ticket_numbers : Option (List String) := none
deriving DecidableEq

/-- Python truthiness of the optional customer / date filters (an explicit
empty string behaves like no filter). -/
def optStrTruthy : Option String → Bool
  | none => false
  | some s => decide (s ≠ "")

/-- Python truthiness of the optional ticket-number list. -/
def optListTruthy : Option (List String) → Bool
  | none => false
  | some l => !l.isEmpty

/-- One row's fate in `axon_export.get_completed_tickets`: each `continue`
of the source is a `false` branch, in source order — already-exported rows
(without `force`), the ticket-number / customer / date filters, then the
zero-volume and zero-hours exclusions (logged, not raised). -/
def selectRow (f : ExportFilters) (force : Bool) (r : TicketRec) : Bool :=
  if force = false ∧ pyUpper r.exported = "Y" then false
  else if optListTruthy f.ticket_numbers ∧ r.ticket_number ∉ (f.ticket_numbers.getD []) then false
  else if optStrTruthy f.customer ∧ pyLower r.customer ≠ pyLower (f.customer.getD "") then false
  else if optStrTruthy f.date_from ∧ strLtb r.date (f.date_from.getD "") then false
  else if optStrTruthy f.date_to ∧ strLtb (f.date_to.getD "") r.date then false
  else if numMissingOrNonpos r.actual_volume then false
  else if numMissingOrNonpos r.hours then false
  else true

/-- `axon_export.get_completed_tickets` over the COMPLETED TICKETS rows. -/
def get_completed_tickets (recs : List TicketRec) (f : ExportFilters) (force : Bool) :
    List TicketRec :=
  recs.filter (selectRow f force)

/-- `axon_export.mark_as_exported`: stamp every row whose ticket number is in
the exported batch with `exported = 'Y'`, the timestamp and the batch file
name. -/
def mark_as_exported (recs : List TicketRec) (nums : List String) (file now : String) :
    List TicketRec :=
  recs.map (fun r =>
    if r.ticket_number ∈ nums then
      { r with exported := "Y", exported_at := now, export_file := file }
    else r)

/-! ## Concrete fixtures used by witnesses and counterexamples -/

/-- A baseline active ticket as created by `create_ticket` and dispatched:
core fields set, work not yet started. -/
def aTicket : TicketRec :=
  { ticket_number := "260101001"
    date := "2026-01-01"
    customer := "Acme"
    from_lsd := "10-15-052-20W4"
    to_lsd := "05-22-053-19W4"
    product := "Crude Oil"
    driver := "Brant Fandrey"
    truck := "Unit 1"
    trailer := "TR-7"
    est_volume := none
    special_instructions := ""
    priority := "Normal"
    status := "ASSIGNED"
    arrive_load := TimeStr.empty
    depart_load := TimeStr.empty
    arrive_offload := TimeStr.empty
    depart_offload := TimeStr.empty
    actual_volume := none
    hours := none
    wait_time := none
    job_description := ""
    consignor_load := ""
    consignor_offload := ""
    placards := ""
    hazard_check := ""
    signature := ""
    notes := ""
    completed_at := ""
    updated_at := ""
    exported := ""
    exported_at := ""
    export_file := "" }

/-- The result of completing `aTicket` with an empty payload: no timestamps,
no volume, no hazard check, no signature. -/
def c1res : CompleteResult :=
  complete_ticket ⟨[aTicket], []⟩ "260101001" {} "2026-01-02T09:00:00"

/-- A payload whose `depart_offload` lies before its `arrive_load`
(10:00 back to 08:00 on the same day). -/
def d3 : DriverData :=
  { arrive_load := some (TimeStr.iso 36000), depart_offload := some (TimeStr.iso 28800) }

/-- The spec's worked example: arrive 08:00, depart pickup 09:00, arrive
delivery 10:00, depart delivery 16:30. -/
def d3w : DriverData :=
  { arrive_load := some (TimeStr.iso 28800)
    depart_load := some (TimeStr.iso 32400)
    arrive_offload := some (TimeStr.iso 36000)
    depart_offload := some (TimeStr.iso 59400) }

/-- A completed, unexported row eligible for export. -/
def rc7 : TicketRec :=
  { aTicket with status := "COMPLETED", actual_volume := some 85, hours := some 4 }

/-- A completed row whose volume is positive but smaller than half a
hundredth. -/
def r10 : TicketRec :=
  { rc7 with actual_volume := some (1 / 1000) }

/-- A row with volume and hours populated but a state short of COMPLETED. -/
def rBad : TicketRec :=
  { rc7 with status := "ASSIGNED" }

/-! ## Helper lemmas -/

/-- Evaluation rule for `round` on rationals via its floor characterisation. -/
theorem round_eval (x : ℚ) (n : ℤ) (h1 : (n : ℚ) ≤ x + 1 / 2) (h2 : x + 1 / 2 < (n : ℚ) + 1) :
    round x = n := by
  rw [round_eq]
  exact Int.floor_eq_iff.mpr ⟨h1, h2⟩

/-- Rounding to hundredths preserves non-negativity. -/
theorem round2_nonneg (x : ℚ) (h : 0 ≤ x) : 0 ≤ round2 x := by
  unfold round2
  have hf : (0 : ℤ) ≤ round (100 * x) := by
    rw [round_eq]
    exact Int.le_floor.mpr (by push_cast; linarith)
  have : (0 : ℚ) ≤ ((round (100 * x) : ℤ) : ℚ) := by exact_mod_cast hf
  positivity

/-- A non-negative value prints without a sign. -/
theorem fmt2_nonneg (x : ℚ) (h : 0 ≤ x) : fmt2 x = fmt2Nat (round (100 * x)).natAbs := by
  unfold fmt2 fmt2Int
  have hf : (0 : ℤ) ≤ round (100 * x) := by
    rw [round_eq]
    exact Int.le_floor.mpr (by push_cast; linarith)
  rw [if_neg (not_lt.mpr hf)]

/-- Every `fmt2` output ends in a point and exactly two decimal digits. -/
theorem twoDecShape_fmt2 (x : ℚ) : twoDecShape (fmt2 x) := by
  unfold twoDecShape fmt2 fmt2Int fmt2Nat
  by_cases h : round (100 * x) < 0
  · exact ⟨"-" ++ toString ((round (100 * x)).natAbs / 100), (round (100 * x)).natAbs % 100,
      Nat.mod_lt _ (by norm_num), by rw [if_pos h]; simp [String.append_assoc]⟩
  · exact ⟨toString ((round (100 * x)).natAbs / 100), (round (100 * x)).natAbs % 100,
      Nat.mod_lt _ (by norm_num), by rw [if_neg h]⟩

/-- The initial accumulator never exceeds a `foldl max`. -/
theorem foldl_max_init_le (l : List ℕ) (a : ℕ) : a ≤ l.foldl max a := by
  induction l generalizing a with
  | nil => exact le_rfl
  | cons y ys ih => exact le_trans (le_max_left a y) (ih (max a y))

/-- `foldl max` dominates every element. -/
theorem le_foldl_max (l : List ℕ) (a x : ℕ) (hx : x ∈ l) : x ≤ l.foldl max a := by
  induction l generalizing a with
  | nil => cases hx
  | cons y ys ih =>
    rcases List.mem_cons.mp hx with h | h
    · subst h
      exact le_trans (le_max_right a x) (foldl_max_init_le ys (max a x))
    · exact ih (max a y) h

/-- `foldl max` is below any common upper bound of the accumulator and the
elements. -/
theorem foldl_max_le (l : List ℕ) (a M : ℕ) (ha : a ≤ M) (h : ∀ x ∈ l, x ≤ M) :
    l.foldl max a ≤ M := by
  induction l generalizing a with
  | nil => exact ha
  | cons y ys ih =>
    exact ih (max a y) (max_le ha (h y (by simp))) (fun z hz => h z (by simp [hz]))

/-- `foldl max 0` of a list attaining its upper bound `M` is `M`. -/
theorem foldl_max_eq (l : List ℕ) (M : ℕ) (h1 : M ∈ l) (h2 : ∀ x ∈ l, x ≤ M) :
    l.foldl max 0 = M :=
  le_antisymm (foldl_max_le l 0 M (Nat.zero_le M) h2) (le_foldl_max l 0 M h1)

/-! ## Claims -/

/-- Claim C1 (counterexample).  Completing the baseline active ticket with an
empty payload — no hazard check, no signature, not a single work timestamp —
nevertheless succeeds: the empty active collection and a COMPLETED record in
the completed collection remain, even though the completion validator rejects
the merged record.  This refutes the claim that `complete_ticket` runs the
completion validator and, on failure, leaves the ticket unchanged in the
active collection. -/
theorem complete_ticket_skips_validation_cex :
    c1res.success = true ∧
    c1res.store.active = [] ∧
    c1res.store.completed.map TicketRec.status = ["COMPLETED"] ∧
    c1res.store.completed.map (fun r => (validate_completion r).valid) = [false] ∧
    c1res.store.completed.map TicketRec.hazard_check = [""] := by
  decide

/-- Claim C1 (amended).  Whenever the ticket number is found in the active
collection, `complete_ticket` succeeds unconditionally: it never invokes the
completion validator; it merges the payload (with derived hours and wait time
filled in), stamps state COMPLETED and a completion timestamp, appends the
merged record to the completed collection and deletes the row from the active
collection — whatever the hazard-check, signature or timestamp fields hold. -/
theorem complete_ticket_unconditional (st : Store) (n now : String) (d : DriverData)
    (t : TicketRec) (h : st.active.find? (fun r => r.ticket_number == n) = some t) :
    complete_ticket st n d now =
      ⟨true, ⟨st.active.eraseP (fun r => r.ticket_number == n),
              st.completed ++ [mergeData t d now]⟩⟩ ∧
    (mergeData t d now).status = "COMPLETED" ∧
    (mergeData t d now).completed_at = now ∧
    (mergeData t d now).hours = some (effectiveHours d) ∧
    (mergeData t d now).hazard_check = d.hazard_check.getD t.hazard_check ∧
    (mergeData t d now).signature = d.signature.getD t.signature := by
  refine ⟨?_, rfl, rfl, rfl, rfl, rfl⟩
  simp only [complete_ticket, h]

/-- Claim C1 (witness): the amended theorem applied to the concrete baseline
store. -/
theorem complete_ticket_unconditional_witness :
    complete_ticket ⟨[aTicket], []⟩ "260101001" ({} : DriverData) "now" =
      ⟨true, ⟨[], [mergeData aTicket {} "now"]⟩⟩ := by
  have h := complete_ticket_unconditional ⟨[aTicket], []⟩ "260101001" "now" {} aTicket
    (by decide)
  exact h.1.trans (by decide)

/-- Claim C2 (counterexample).  The single-field update operation happily rewrites
the core field `customer`, set at creation: updating ticket 260101001's
customer to "Other Co" succeeds and the active collection then carries
"Other Co" in place of the creation value "Acme".  This refutes the claimed
immutability of the creation fields. -/
theorem update_field_mutates_core_cex :
    (update_field ⟨[aTicket], []⟩ "260101001" "customer" (FieldVal.str "Other Co")
        "2026-01-01T12:00:00").success = true ∧
    (update_field ⟨[aTicket], []⟩ "260101001" "customer" (FieldVal.str "Other Co")
        "2026-01-01T12:00:00").store.active.map TicketRec.customer = ["Other Co"] ∧
    aTicket.customer = "Acme" := by
  decide

/-- Claim C2 (amended).  Neither operation enforces immutability.  `update_field`
writes the given value into whichever known field is named — including the
core field `customer` and even `ticket_number` — changing only that field,
the `updated_at` stamp, and (for `arrive_load`) the automatic IN_PROGRESS
status flip.  `complete_ticket`'s merge, whose payload carries only
completion-stage fields, does preserve `ticket_number` and the ten core
creation fields. -/
theorem update_and_merge_mutation (t : TicketRec) (v : String) (w : TimeStr)
    (d : DriverData) (now : String) :
    applyUpdate t "customer" (FieldVal.str v) now =
      some { t with customer := v, updated_at := now } ∧
    applyUpdate t "ticket_number" (FieldVal.str v) now =
      some { t with ticket_number := v, updated_at := now } ∧
    applyUpdate t "arrive_load" (FieldVal.ts w) now =
      some { t with arrive_load := w, updated_at := now, status := "IN_PROGRESS" } ∧
    (mergeData t d now).ticket_number = t.ticket_number ∧
    (mergeData t d now).customer = t.customer ∧
    (mergeData t d now).from_lsd = t.from_lsd ∧
    (mergeData t d now).to_lsd = t.to_lsd ∧
    (mergeData t d now).product = t.product ∧
    (mergeData t d now).driver = t.driver ∧
    (mergeData t d now).truck = t.truck ∧
    (mergeData t d now).trailer = t.trailer ∧
    (mergeData t d now).est_volume = t.est_volume ∧
    (mergeData t d now).special_instructions = t.special_instructions ∧
    (mergeData t d now).priority = t.priority := by
  exact ⟨rfl, rfl, rfl, rfl, rfl, rfl, rfl, rfl, rfl, rfl, rfl, rfl, rfl, rfl⟩

/-- Claim C3 (counterexample).  With arrive_load at 10:00 and depart_offload at
08:00 the same day, `calculate_hours` returns −2, not 0: zero-or-negative
results are *not* clamped to a reported value of 0. -/
theorem calculate_hours_negative_cex :
    calculate_hours d3 = -2 ∧ calculate_hours d3 < 0 := by
  have hb : calculate_hours d3 = round2 ((28800 - 36000 : ℚ) / 3600) := rfl
  have hr : round (100 * (((28800 : ℚ) - 36000) / 3600)) = -200 :=
    round_eval _ _ (by norm_num) (by norm_num)
  have h2 : calculate_hours d3 = -2 := by
    rw [hb, round2, hr]; norm_num
  exact ⟨h2, by rw [h2]; norm_num⟩

/-- Claim C3 (amended).  `calculate_hours` returns `(depart_offload − arrive_load)`
in hours rounded to 2 decimals, *without* clamping negative results (they are
returned as-is); `calculate_wait_time` returns the sum of the two on-site
waits, rounded likewise; both return 0.0 whenever a required timestamp of the
payload is missing or malformed; and on timestamps satisfying the ordering
invariant the hours value is non-negative. -/
theorem calculate_hours_wait_spec (d : DriverData) :
    (∀ a b : ℚ, d.arrive_load = some (TimeStr.iso a) →
       d.depart_offload = some (TimeStr.iso b) →
       calculate_hours d = round2 ((b - a) / 3600) ∧ (a ≤ b → 0 ≤ calculate_hours d)) ∧
    ((d.arrive_load.getD TimeStr.empty).val? = none ∨
       (d.depart_offload.getD TimeStr.empty).val? = none →
       calculate_hours d = 0) ∧
    (∀ a1 b1 a2 b2 : ℚ, d.arrive_load = some (TimeStr.iso a1) →
       d.depart_load = some (TimeStr.iso b1) →
       d.arrive_offload = some (TimeStr.iso a2) →
       d.depart_offload = some (TimeStr.iso b2) →
       calculate_wait_time d = round2 ((b1 - a1) / 3600 + (b2 - a2) / 3600)) ∧
    ((d.arrive_load.getD TimeStr.empty).val? = none ∨
       (d.depart_load.getD TimeStr.empty).val? = none ∨
       (d.arrive_offload.getD TimeStr.empty).val? = none ∨
       (d.depart_offload.getD TimeStr.empty).val? = none →
       calculate_wait_time d = 0) := by
  refine ⟨?_, ?_, ?_, ?_⟩
  · intro a b ha hb
    have he : calculate_hours d = round2 ((b - a) / 3600) := by
      unfold calculate_hours
      rw [ha, hb]
      rfl
    refine ⟨he, fun hab => ?_⟩
    rw [he]
    exact round2_nonneg _ (div_nonneg (by linarith) (by norm_num))
  · intro h
    unfold calculate_hours
    cases h1 : (d.arrive_load.getD TimeStr.empty).val? <;>
      cases h2 : (d.depart_offload.getD TimeStr.empty).val? <;>
      simp_all
  · intro a1 b1 a2 b2 h1 h2 h3 h4
    unfold calculate_wait_time
    rw [h1, h2, h3, h4]
    rfl
  · intro h
    unfold calculate_wait_time
    cases h1 : (d.arrive_load.getD TimeStr.empty).val? <;>
      cases h2 : (d.depart_load.getD TimeStr.empty).val? <;>
      cases h3 : (d.arrive_offload.getD TimeStr.empty).val? <;>
      cases h4 : (d.depart_offload.getD TimeStr.empty).val? <;>
      simp_all

/-- Claim C3 (witness): the spec's worked example — 08:00 → 16:30 gives 8.50
hours, non-negative, and the two waits sum to 7.50. -/
theorem calculate_hours_wait_witness :
    calculate_hours d3w = 17 / 2 ∧ 0 ≤ calculate_hours d3w ∧
    calculate_wait_time d3w = 15 / 2 := by
  have h := calculate_hours_wait_spec d3w
  have h1 := h.1 28800 59400 rfl rfl
  have h2 := h.2.2.1 28800 32400 36000 59400 rfl rfl rfl rfl
  refine ⟨?_, h1.2 (by norm_num), ?_⟩
  · rw [h1.1, round2, round_eval _ 850 (by norm_num) (by norm_num)]
    norm_num
  · rw [h2, round2, round_eval _ 750 (by norm_num) (by norm_num)]
    norm_num

/-- Claim C4.  Ticket-number generation is deterministic in the scanned set: a
failed scan falls back to prefix+001; no prefix match gives prefix+001; and
when the daily sequences attain maximum `M`, the result is the prefix
followed by `M + 1` zero-padded to three digits. -/
theorem generate_ticket_number_spec (pfx : String) (used : List String) (M : ℕ)
    (hwf : ∀ s ∈ used, pyStartsWith s pfx = true →
      sLen s = 9 ∧ (pyToNat? (last3 s)).isSome) :
    generate_ticket_number pfx none = pfx ++ "001" ∧
    (existing_numbers pfx used = [] → generate_ticket_number pfx (some used) = pfx ++ "001") ∧
    (M ∈ sequences pfx used → (∀ x ∈ sequences pfx used, x ≤ M) →
      generate_ticket_number pfx (some used) = pfx ++ pad3 (M + 1)) := by
  have hguard : (nine_digit pfx used).all (fun s => (pyToNat? (last3 s)).isSome) = true := by
    rw [List.all_eq_true]
    intro s hs
    have hs1 := List.mem_filter.mp hs
    have hs2 := List.mem_filter.mp hs1.1
    exact (hwf s hs2.1 hs2.2).2
  refine ⟨rfl, ?_, ?_⟩
  · intro hex
    have hempty : (existing_numbers pfx used).isEmpty = true := by
      rw [hex]; rfl
    simp [generate_ticket_number, hguard, hempty]
    rfl
  · intro hM hub
    obtain ⟨s, hs, hps⟩ := List.mem_filterMap.mp hM
    have hsx := List.mem_filter.mp hs
    have hempty : (existing_numbers pfx used).isEmpty = false := by
      rcases hq : existing_numbers pfx used with _ | _
      · rw [hq] at hsx; cases hsx.1
      · rfl
    have hseq : (sequences pfx used).isEmpty = false := by
      rcases hq : sequences pfx used with _ | _
      · rw [hq] at hM; cases hM
      · rfl
    simp [generate_ticket_number, hguard, hempty, hseq]
    rw [foldl_max_eq (sequences pfx used) M hM hub]

/-- Claim C4 (witness): the theorem instantiated on the spec's examples, plus the
fail-closed scan. -/
theorem generate_ticket_number_witness :
    generate_ticket_number "260101" (some ["260101001", "260101002"]) = "260101003" ∧
    generate_ticket_number "260101" (some []) = "260101001" ∧
    generate_ticket_number "260101" none = "260101001" := by
  have h := generate_ticket_number_spec "260101" ["260101001", "260101002"] 2 (by decide)
  have h0 := generate_ticket_number_spec "260101" [] 0 (by decide)
  refine ⟨?_, h0.2.1 (by decide), h.1⟩
  exact (h.2.2 (by decide) (by decide)).trans (by decide)

/-- Claim C5.  Export-stage validation fails exactly when the status is not
COMPLETED, the actual volume is missing or non-positive, the hours are
missing or non-positive, or the arrival timestamp is absent; and each failed
condition contributes its own field-level error. -/
theorem validate_export_spec (r : TicketRec) :
    ((validate_export r).valid = false ↔
      (pyUpper r.status ≠ "COMPLETED" ∨ numMissingOrNonpos r.actual_volume = true ∨
       numMissingOrNonpos r.hours = true ∨ r.arrive_load.truthy = false)) ∧
    (pyUpper r.status ≠ "COMPLETED" ↔
      "status" ∈ (validate_export r).errors.map FieldMsg.field) ∧
    (numMissingOrNonpos r.actual_volume = true ↔
      "actual_volume" ∈ (validate_export r).errors.map FieldMsg.field) ∧
    (numMissingOrNonpos r.hours = true ↔
      "hours" ∈ (validate_export r).errors.map FieldMsg.field) ∧
    (r.arrive_load.truthy = false ↔
      "arrive_load" ∈ (validate_export r).errors.map FieldMsg.field) := by
  unfold validate_export
  split_ifs with h1 h2 h3 h4 <;> simp_all

/-- Claim C5 (witness): the theorem applied to a populated row whose state is
still ASSIGNED — export validation fails on status alone, even with volume
and hours present and positive. -/
theorem validate_export_witness :
    (validate_export rBad).valid = false ∧
    "status" ∈ (validate_export rBad).errors.map FieldMsg.field ∧
    numMissingOrNonpos rBad.actual_volume = false := by
  have h := validate_export_spec rBad
  have hst : pyUpper rBad.status ≠ "COMPLETED" := by decide
  exact ⟨h.1.mpr (Or.inl hst), h.2.1.mp hst, by decide⟩

/-- Claim C6.  Completion-stage volume validation: actual ≤ 0 is the only error
source; actual > 500 contributes only a warning; and with a positive
estimate, the variance warning (carrying the rounded percentage) appears
exactly when `|actual − est| / est > 1/5`. -/
theorem validate_volume_spec (a e : ℚ) (he : 0 < e) :
    (validate_volume a (some e)).fst = (if a ≤ 0 then ["Volume must be greater than 0"] else []) ∧
    (validate_volume a (some e)).snd =
      (if 500 < a then [volHighMsg a] else []) ++
      (if 1/5 < |a - e| / e then [varianceMsg a e] else []) := by
  have ht : optQTruthy (some e) = true := by
    simp [optQTruthy, ne_of_gt he]
  unfold validate_volume
  simp [ht, he]

/-- Claim C6 (witness): est = 100 with actual = 125 warns "25%", actual = 115 does
not warn, and actual = −1 is an error. -/
theorem validate_volume_witness :
    (validate_volume 125 (some 100)).snd = [varianceMsg 125 100] ∧
    varianceMsg 125 100 = "Actual differs from estimated by 25%" ∧
    (validate_volume 115 (some 100)).snd = [] ∧
    (validate_volume 125 (some 100)).fst = [] ∧
    (validate_volume (-1) (some 100)).fst = ["Volume must be greater than 0"] := by
  have h125 := validate_volume_spec 125 100 (by norm_num)
  have h115 := validate_volume_spec 115 100 (by norm_num)
  have hneg := validate_volume_spec (-1) 100 (by norm_num)
  refine ⟨?_, ?_, ?_, ?_, ?_⟩
  · rw [h125.2]
    norm_num
  · unfold varianceMsg
    rw [show round (|(125 : ℚ) - 100| / 100 * 100) = 25 from
      round_eval _ _ (by rw [show |(125 : ℚ) - 100| = 25 by norm_num]; norm_num)
        (by rw [show |(125 : ℚ) - 100| = 25 by norm_num]; norm_num)]
    rfl
  · rw [h115.2]
    norm_num
  · rw [h125.1]
    norm_num
  · rw [hneg.1]
    norm_num

/-- Claim C7.  With `force` unset the export coordinator selects no already
exported row and no row with missing or non-positive volume or hours; and
a second run with `force = False` after marking the first run's batch
exported selects nothing — the export batch is idempotent. -/
theorem export_batch_idempotent (recs : List TicketRec) (f : ExportFilters)
    (file now : String) :
    (∀ r ∈ get_completed_tickets recs f false,
      pyUpper r.exported ≠ "Y" ∧ numMissingOrNonpos r.actual_volume = false ∧
      numMissingOrNonpos r.hours = false) ∧
    get_completed_tickets
      (mark_as_exported recs ((get_completed_tickets recs f false).map TicketRec.ticket_number)
        file now)
      f false = [] := by
  constructor
  · intro r hr
    have hsel : selectRow f false r = true := (List.mem_filter.mp hr).2
    unfold selectRow at hsel
    split_ifs at hsel with h1 h2 h3 h4 h5 h6 h7
    refine ⟨fun hY => h1 ⟨rfl, hY⟩, ?_, ?_⟩
    · cases hq : numMissingOrNonpos r.actual_volume
      · rfl
      · exact absurd hq h6
    · cases hq : numMissingOrNonpos r.hours
      · rfl
      · exact absurd hq h7
  · rw [get_completed_tickets, List.filter_eq_nil_iff]
    intro x hx
    obtain ⟨r, hr, rfl⟩ := List.mem_map.mp hx
    by_cases hmem :
        r.ticket_number ∈ (get_completed_tickets recs f false).map TicketRec.ticket_number
    · rw [if_pos hmem]
      unfold selectRow
      have hy : pyUpper "Y" = "Y" := by decide
      rw [if_pos ⟨rfl, hy⟩]
      simp
    · rw [if_neg hmem]
      intro hsel
      exact hmem (List.mem_map.mpr ⟨r, List.mem_filter.mpr ⟨hr, hsel⟩, rfl⟩)

/-- Claim C7 (witness): the theorem applied to a one-row completed sheet — the row
is eligible on the first run and the second run over the marked sheet is
empty. -/
theorem export_batch_idempotent_witness :
    get_completed_tickets
      (mark_as_exported [rc7] ((get_completed_tickets [rc7] {} false).map TicketRec.ticket_number)
        "AXON_1.csv" "2026-01-05T08:00:00")
      ({} : ExportFilters) false = [] ∧
    pyUpper rc7.exported ≠ "Y" := by
  have h := export_batch_idempotent [rc7] {} "AXON_1.csv" "2026-01-05T08:00:00"
  exact ⟨h.2, (h.1 rc7 (by decide)).1⟩

/-- Claim C8.  The billing transform emits exactly the 19 AXON columns in their
contractual order; the six constant columns are independent of the ticket;
Actual Vol and Hours are the two-decimal renderings of the ticket values;
Location is "pickup to delivery"; and Job Desc is "product - customer". -/
theorem transform_to_axon_spec (t : TicketRec) :
    (transform_to_axon t).map Prod.fst = AXON_COLUMNS ∧
    colValue (transform_to_axon t) "Attachment" = some "FALSE" ∧
    colValue (transform_to_axon t) "Product2" = some "" ∧
    colValue (transform_to_axon t) "Reference" = some "" ∧
    colValue (transform_to_axon t) "Charge" = some "" ∧
    colValue (transform_to_axon t) "Company" = some "Rick's Oilfield Hauling" ∧
    colValue (transform_to_axon t) "Status" = some "Completed" ∧
    colValue (transform_to_axon t) "Location" = some (t.from_lsd ++ " to " ++ t.to_lsd) ∧
    colValue (transform_to_axon t) "Job Desc" = some (t.product ++ " - " ++ t.customer) ∧
    colValue (transform_to_axon t) "Actual Vol" = some (fmt2 (t.actual_volume.getD 0)) ∧
    colValue (transform_to_axon t) "Hours" = some (fmt2 (t.hours.getD 0)) ∧
    twoDecShape (fmt2 (t.actual_volume.getD 0)) ∧
    twoDecShape (fmt2 (t.hours.getD 0)) :=
  ⟨rfl, rfl, rfl, rfl, rfl, rfl, rfl, rfl, rfl, rfl, rfl,
   twoDecShape_fmt2 _, twoDecShape_fmt2 _⟩

/-- Claim C9.  Operator-name formatting: at least two whitespace tokens give
"last token, first token"; fewer than two tokens pass the original string
through unchanged. -/
theorem format_operator_name_spec (dn : String) :
    (∀ f p ps, pyWords dn = f :: p :: ps →
      format_operator_name dn = (p :: ps).getLast (List.cons_ne_nil p ps) ++ ", " ++ f) ∧
    ((pyWords dn).length < 2 → format_operator_name dn = dn) := by
  constructor
  · intro f p ps h
    simp [format_operator_name, h]
  · intro h
    rcases hw : pyWords dn with _ | ⟨f, _ | ⟨p, ps⟩⟩
    · simp [format_operator_name, hw]
    · simp [format_operator_name, hw]
    · exfalso
      rw [hw] at h
      simp only [List.length_cons] at h
      omega

/-- Claim C9 (witness): `format("Brant Fandrey") = "Fandrey, Brant"` and
`format("Prince") = "Prince"`. -/
theorem format_operator_name_witness :
    format_operator_name "Brant Fandrey" = "Fandrey, Brant" ∧
    format_operator_name "Prince" = "Prince" := by
  have h1 := (format_operator_name_spec "Brant Fandrey").1 "Brant" "Fandrey" [] (by decide)
  have h2 := (format_operator_name_spec "Prince").2 (by decide)
  exact ⟨h1.trans (by decide), h2⟩

/-- Claim C10 (counterexample).  A completed row with actual_volume 1/1000 (> 0,
so the export selection keeps it) is transformed to the Actual Vol string
"0.00" — a two-decimal string, but not a positive one. -/
theorem transform_small_volume_cex :
    get_completed_tickets [r10] ({} : ExportFilters) false = [r10] ∧
    (0 : ℚ) < 1 / 1000 ∧
    colValue (transform_to_axon r10) "Actual Vol" = some (fmt2 (1 / 1000)) ∧
    fmt2 (1 / 1000) = "0.00" ∧
    fmt2 0 = "0.00" := by
  have hsel : selectRow {} false r10 = true := by
    unfold selectRow
    have hvol : numMissingOrNonpos r10.actual_volume = false := by
      have : ¬ ((1 : ℚ) / 1000 ≤ 0) := by norm_num
      simp [r10, rc7, numMissingOrNonpos, this]
    have hhrs : numMissingOrNonpos r10.hours = false := by
      have : ¬ ((4 : ℚ) ≤ 0) := by norm_num
      simp [r10, rc7, aTicket, numMissingOrNonpos, this]
    rw [if_neg (by simp [r10, rc7, aTicket]; decide)]
    simp [optListTruthy, optStrTruthy, hvol, hhrs]
  have hrnd : round (100 * ((1 : ℚ) / 1000)) = 0 :=
    round_eval _ _ (by norm_num) (by norm_num)
  have hrnd0 : round (100 * (0 : ℚ)) = 0 :=
    round_eval _ _ (by norm_num) (by norm_num)
  refine ⟨?_, by norm_num, rfl, ?_, ?_⟩
  · unfold get_completed_tickets
    rw [List.filter_cons_of_pos hsel]
    rfl
  · rw [fmt2, hrnd]
    decide
  · rw [fmt2, hrnd0]
    decide

/-- Claim C10 (amended).  Every row kept by export selection has a present,
positive actual_volume and hours, so the billing transform's numeric
conversions cannot fail: Actual Vol and Hours are the two-decimal renderings
of those positive values, printed without a sign (values below 1/200 render
as the non-positive string "0.00"). -/
theorem selected_rows_transform_safe (recs : List TicketRec) (f : ExportFilters)
    (r : TicketRec) (h : r ∈ get_completed_tickets recs f false) :
    ∃ v w : ℚ, r.actual_volume = some v ∧ 0 < v ∧ r.hours = some w ∧ 0 < w ∧
      colValue (transform_to_axon r) "Actual Vol" = some (fmt2 v) ∧
      colValue (transform_to_axon r) "Hours" = some (fmt2 w) ∧
      fmt2 v = fmt2Nat (round (100 * v)).natAbs ∧
      fmt2 w = fmt2Nat (round (100 * w)).natAbs ∧
      twoDecShape (fmt2 v) ∧ twoDecShape (fmt2 w) := by
  have hsel : selectRow f false r = true := (List.mem_filter.mp h).2
  unfold selectRow at hsel
  split_ifs at hsel with h1 h2 h3 h4 h5 h6 h7
  rcases hv : r.actual_volume with _ | v
  · rw [hv] at h6
    exact absurd rfl h6
  rcases hw : r.hours with _ | w
  · rw [hw] at h7
    exact absurd rfl h7
  have hv0 : 0 < v := by
    rw [hv] at h6
    unfold numMissingOrNonpos at h6
    by_contra hle
    exact h6 (by simpa using not_lt.mp hle)
  have hw0 : 0 < w := by
    rw [hw] at h7
    unfold numMissingOrNonpos at h7
    by_contra hle
    exact h7 (by simpa using not_lt.mp hle)
  refine ⟨v, w, rfl, hv0, rfl, hw0, ?_, ?_, fmt2_nonneg v hv0.le, fmt2_nonneg w hw0.le,
    twoDecShape_fmt2 v, twoDecShape_fmt2 w⟩
  · have hc : colValue (transform_to_axon r) "Actual Vol" =
        some (fmt2 (r.actual_volume.getD 0)) := rfl
    rw [hc, hv]
    rfl
  · have hc : colValue (transform_to_axon r) "Hours" =
        some (fmt2 (r.hours.getD 0)) := rfl
    rw [hc, hw]
    rfl

/-- Claim C10 (witness): the amended theorem applied to the one eligible concrete
row, whose 85 m³ render as "85.00". -/
theorem selected_rows_transform_safe_witness :
    rc7 ∈ get_completed_tickets [rc7] ({} : ExportFilters) false ∧
    colValue (transform_to_axon rc7) "Actual Vol" = some (fmt2 85) ∧
    fmt2 85 = "85.00" := by
  have hmem : rc7 ∈ get_completed_tickets [rc7] ({} : ExportFilters) false := by decide
  obtain ⟨v, w, hv, hv0, hw, hw0, hcv, hcw, _, _, _, _⟩ :=
    selected_rows_transform_safe [rc7] {} rc7 hmem
  have hv85 : v = 85 := by
    have : some (85 : ℚ) = some v := hv
    exact (Option.some.inj this).symm
  refine ⟨hmem, ?_, ?_⟩
  · rw [hcv, hv85]
  · rw [fmt2, round_eval _ 8500 (by norm_num) (by norm_num)]
    decide

end TicketDrop
